import Mathlib

/-!
Verification development for the `nodejs-monolith` repository.

The repository is a TypeScript monolith with four modules (client-adm,
payment, product-adm, store-catalog).  This file gives a shallow embedding
of the request pipeline the specification describes: Joi body validation
(`src/modules/@shared/middleware/validate.ts`), the Express route
handlers (`*.routes.ts`), the payment domain entity and use case, and the
read projections — and proves/refutes the specification's claims about it.

Conventions of the embedding:
* JSON payloads are association lists of `String × JValue`; numbers are
  rationals (`Rat`), dates are abstract `Nat` timestamps.
* Fallible TypeScript code (throwing constructors, rejecting promises)
  becomes `Except`.
* Identifier generation and the current time are passed in as explicit
  parameters (`genId`, `now`) instead of being read from the environment.
* Values thrown with `throw` are modelled by `Thrown`: either a JS `Error`
  object carrying a message, or any non-`Error` value.
-/

deriving instance DecidableEq for Except

/-- A JSON-ish value as it appears in a request body. -/
inductive JValue where
  | jstr (s : String)
  | jnum (q : Rat)
  | jbool (b : Bool)
  | jnull
deriving DecidableEq, Repr

/-- A request/response payload: an association list of field name to value. -/
abbrev Payload := List (String × JValue)

/-- First-match lookup of a key in a payload (JS object field access). -/
def lookupKey (body : Payload) (k : String) : Option JValue :=
  match body with
  | [] => none
  | (k', v) :: rest => if k' == k then some v else lookupKey rest k

/-- Numeric value of a list of decimal digit characters; `none` when a
non-digit occurs.  Accumulator-style, mirroring left-to-right parsing. -/
def digitsVal (acc : Nat) : List Char → Option Nat
  | [] => some acc
  | c :: cs =>
      if c.isDigit then digitsVal (acc * 10 + (c.toNat - '0'.toNat)) cs
      else none

/-- Ten to the given power, as an explicitly recursive `Nat` function so
that concrete parses reduce inside the kernel. -/
def tenPow : Nat → Nat
  | 0 => 1
  | n + 1 => 10 * tenPow n

/-- Split a character list at the first '.' if any. -/
def splitDot : List Char → List Char × Option (List Char)
  | [] => ([], none)
  | c :: rest =>
      if c == '.' then ([], some rest)
      else
        let (a, b) := splitDot rest
        (c :: a, b)

/-- Parse an unsigned decimal literal (`"12"`, `"12.5"`) into a rational.
Models the numeric-string conversion Joi applies by default
(`convert: true`) for `Joi.number()`; forms outside plain sign+decimal
notation (exponents, whitespace) are out of scope and map to `none`. -/
def parseDecChars (cs : List Char) : Option Rat :=
  match splitDot cs with
  | (ip, none) =>
      if ip.isEmpty then none
      else (digitsVal 0 ip).map (fun n => mkRat (Int.ofNat n) 1)
  | (ip, some fp) =>
      if ip.isEmpty || fp.isEmpty then none
      else
        match digitsVal 0 ip, digitsVal 0 fp with
        | some n, some f =>
            some (mkRat (Int.ofNat (n * tenPow fp.length + f)) (tenPow fp.length))
        | _, _ => none

/-- Parse a signed decimal string into a rational (Joi numeric coercion). -/
def parseNumString (s : String) : Option Rat :=
  match s.data with
  | [] => none
  | c :: rest =>
      if c == '-' then (parseDecChars rest).map (fun q => -q)
      else parseDecChars (c :: rest)

/-- Joi coercion of a body value to a number: numbers pass through,
numeric strings convert, everything else is not a number. -/
def coerceNumber : JValue → Option Rat
  | .jnum q => some q
  | .jstr s => parseNumString s
  | _ => none

/-- The Joi field types the repository's schemas use:
`Joi.string()` and `Joi.number()` with its `positive` / `integer` /
`min(k)` constraints. -/
inductive FieldType where
  | jstring
  | jnumber (positive : Bool) (integer : Bool) (minVal : Option Int)
deriving DecidableEq, Repr

/-- One field of a Joi object schema: a type plus the required flag. -/
structure FieldSchema where
  type : FieldType
  required : Bool
deriving DecidableEq, Repr

/-- A Joi object schema: field name to field schema, in declaration order. -/
abbrev Schema := List (String × FieldSchema)

/-- A field name quoted the way Joi prints it in violation messages. -/
def jq (name : String) : String := "\"" ++ name ++ "\""

/-- The constraint checks of `Joi.number()` after coercion, first failing
rule reported, with Joi's default message texts. -/
def checkNumberRules (name : String) (positive integer : Bool)
    (minVal : Option Int) (q : Rat) : Option String :=
  if positive = true ∧ ¬ (0 < q) then
    some (jq name ++ " must be a positive number")
  else if integer = true ∧ q.den ≠ 1 then
    some (jq name ++ " must be an integer")
  else
    match minVal with
    | some m =>
        if q < (m : Rat) then
          some (jq name ++ " must be greater than or equal to " ++ toString m)
        else none
    | none => none

/-- Validate one declared field against its schema given the (possibly
absent) raw value.  Returns the violation message, or the normalized
(coerced) value — `none` when an optional field is absent. -/
def checkField (name : String) (fs : FieldSchema) :
    Option JValue → Except String (Option JValue)
  | none =>
      if fs.required then .error (jq name ++ " is required") else .ok none
  | some v =>
      match fs.type with
      | .jstring =>
          match v with
          | .jstr s => .ok (some (.jstr s))
          | _ => .error (jq name ++ " must be a string")
      | .jnumber positive integer minVal =>
          match coerceNumber v with
          | some q =>
              match checkNumberRules name positive integer minVal q with
              | some m => .error m
              | none => .ok (some (.jnum q))
          | none => .error (jq name ++ " must be a number")

/-- The check results for every declared field of the schema, in order. -/
def declaredChecks (schema : Schema) (body : Payload) :
    List (String × Except String (Option JValue)) :=
  schema.map (fun f => (f.fst, checkField f.fst f.snd (lookupKey body f.fst)))

/-- All violation messages of declared fields, one per failing field,
collected in a single pass (Joi's `abortEarly: false`). -/
def declaredErrors (schema : Schema) (body : Payload) : List String :=
  (declaredChecks schema body).filterMap
    (fun r => match r.snd with | .error m => some m | .ok _ => none)

/-- Whether a key is declared in the schema. -/
def isDeclared (schema : Schema) (k : String) : Bool :=
  schema.any (fun f => f.fst == k)

/-- Joi's default object behaviour: unknown keys are not allowed
(`allowUnknown` defaults to `false`), each yielding a violation. -/
def unknownErrors (schema : Schema) (body : Payload) : List String :=
  (body.filter (fun p => !(isDeclared schema p.fst))).map
    (fun p => jq p.fst ++ " is not allowed")

/-- The normalized payload on success: declared fields that are present,
with their coerced values, in schema order. -/
def normalizedBody (schema : Schema) (body : Payload) : Payload :=
  schema.filterMap (fun f =>
    match checkField f.fst f.snd (lookupKey body f.fst) with
    | .ok (some v) => some (f.fst, v)
    | _ => none)

/-- `schema.validate(body, \x7b abortEarly: false \x7d)` of
`src/modules/@shared/middleware/validate.ts`: either all violation
messages, or the normalized value. -/
def joiValidate (schema : Schema) (body : Payload) :
    Except (List String) Payload :=
  let errs := declaredErrors schema body ++ unknownErrors schema body
  if errs.isEmpty then .ok (normalizedBody schema body) else .error errs

/-- `error.details.map(d => d.message).join('; ')` in `validateBody`. -/
def joinedError (msgs : List String) : String := String.intercalate "; " msgs

/-- `processPaymentSchema` of `src/modules/payment/routes/payment.routes.ts`:
`orderId: Joi.string().required(), amount: Joi.number().positive().required()`. -/
def processPaymentSchema : Schema :=
  [("orderId", ⟨.jstring, true⟩),
   ("amount", ⟨.jnumber true false none, true⟩)]

/-- `createProductSchema` of
`src/modules/product-adm/routes/product-adm.routes.ts`. -/
def createProductSchema : Schema :=
  [("id", ⟨.jstring, false⟩),
   ("name", ⟨.jstring, true⟩),
   ("description", ⟨.jstring, true⟩),
   ("purchasePrice", ⟨.jnumber true false none, true⟩),
   ("stock", ⟨.jnumber false true (some 0), true⟩)]


/-- Transaction status; `pending` is the only valid initial value. -/
inductive TStatus where
  | pending
  | approved
  | declined
deriving DecidableEq, Repr

/-- The payment Transaction entity
(`src/modules/payment/domain/transaction.ts`; its unit tests live in the
repository as `transaction.spec.ts`). -/
structure Transaction where
  id : String
  amount : Rat
  orderId : String
  status : TStatus
  createdAt : Nat
  updatedAt : Nat
deriving DecidableEq, Repr

/-- Modelled from the spec: the Transaction constructor of
`transaction.ts` is not under `src/` (only its unit tests are).  Per the
spec, construction validates `amount > 0` and fails with the domain error
"Amount must be greater than 0" otherwise; a missing identifier is
replaced by a freshly generated one (`genId` here).  The unit tests in
the repository pin exactly this behaviour. -/
def Transaction.create (idOpt : Option String) (genId : String)
    (orderId : String) (amount : Rat) (status : TStatus) (now : Nat) :
    Except String Transaction :=
  if amount ≤ 0 then .error "Amount must be greater than 0"
  else .ok ⟨idOpt.getD genId, amount, orderId, status, now, now⟩

/-- Modelled from the spec: `Transaction.approve` sets status to
`approved`. -/
def Transaction.approve (t : Transaction) : Transaction :=
  { t with status := .approved }

/-- Modelled from the spec: `Transaction.decline` sets status to
`declined`. -/
def Transaction.decline (t : Transaction) : Transaction :=
  { t with status := .declined }

/-- Modelled from the spec: `Transaction.process` — if amount ≥ 100,
invoke `approve`; otherwise invoke `decline`.  The sole business rule of
the payment domain, pinned by the repository's unit tests and by the data
flow comment in `payment.routes.spec.ts`. -/
def Transaction.process (t : Transaction) : Transaction :=
  if 100 ≤ t.amount then t.approve else t.decline

/-- The projection the payment facade returns
(`\x7b transactionId, orderId, amount, status, createdAt, updatedAt \x7d`). -/
structure PaymentResult where
  transactionId : String
  orderId : String
  amount : Rat
  status : TStatus
  createdAt : Nat
  updatedAt : Nat
deriving DecidableEq, Repr

/-- One run of the ProcessPayment use case, instrumented with the
persistence calls it made (`saves`, the arguments of `repository.save`
in order) and the statuses its in-memory transaction held
(`statusTrace`, in order). -/
structure UsecaseRun where
  result : Except String PaymentResult
  saves : List Transaction
  statusTrace : List TStatus
deriving DecidableEq, Repr

/-- Modelled from the spec: `ProcessPaymentUseCase.execute` is not under
`src/` (only its callers and route tests are).  Per the spec it
constructs a Transaction in `pending` state, invokes `process` in
memory, persists the final state exactly once via the repository, and
returns the full projection including the final status. -/
def processPaymentUsecase (orderId : String) (amount : Rat)
    (genId : String) (now : Nat) : UsecaseRun :=
  match Transaction.create none genId orderId amount .pending now with
  | .error e => ⟨.error e, [], []⟩
  | .ok t =>
      let t' := t.process
      ⟨.ok ⟨t'.id, t'.orderId, t'.amount, t'.status, t'.createdAt, t'.updatedAt⟩,
       [t'], [t.status, t'.status]⟩

/-- Repository `save` as an upsert by identifier (spec §4.4). -/
def saveTransaction (store : List Transaction) (t : Transaction) :
    List Transaction :=
  if store.any (fun x => x.id == t.id) then
    store.map (fun x => if x.id == t.id then t else x)
  else store ++ [t]

/-- A value thrown in JS: either an `Error` object carrying a message, or
any non-`Error` value (`error instanceof Error` fails). -/
inductive Thrown where
  | errObj (message : String)
  | nonErr
deriving DecidableEq, Repr

/-- Response bodies the routes produce. -/
inductive ResBody where
  | err (message : String)
  | payment (r : PaymentResult)
  | kvs (fields : Payload)
  | items (products : List Payload)
  | note (message : String)
deriving DecidableEq, Repr

/-- An HTTP response: status code plus JSON body. -/
structure HttpRes where
  status : Nat
  body : ResBody
deriving DecidableEq, Repr

/-- Outcome of the `validateBody` middleware: terminate the pipeline with
a client-error response, or forward the normalized payload downstream. -/
inductive MiddlewareOut where
  | rejected (res : HttpRes)
  | forwarded (body : Payload)
deriving DecidableEq, Repr

/-- `validateBody(schema)` of
`src/modules/@shared/middleware/validate.ts`: on a Joi error respond 400
with the joined messages and never call `next()`; on success replace
`req.body` with the coerced value and continue. -/
def validateBodyRun (schema : Schema) (raw : Payload) : MiddlewareOut :=
  match joiValidate schema raw with
  | .error msgs => .rejected ⟨400, .err (joinedError msgs)⟩
  | .ok value => .forwarded value

/-- The catch block of `clientAdmRouter.post` in
`src/modules/client-adm/routes/client-adm.routes.ts`: message of the
`Error` instance, else the fixed generic message; always status 500. -/
def postClientsCatch (error : Thrown) : HttpRes :=
  let message := match error with
    | .errObj m => m
    | .nonErr => "Internal server error"
  ⟨500, .err message⟩

/-- The catch block of `productAdmRouter.post` in
`src/modules/product-adm/routes/product-adm.routes.ts` (same code). -/
def postProductsCatch (error : Thrown) : HttpRes :=
  let message := match error with
    | .errObj m => m
    | .nonErr => "Internal server error"
  ⟨500, .err message⟩

/-- The catch block of `paymentRouter.post` in
`src/modules/payment/routes/payment.routes.ts` (same code). -/
def postPaymentsCatch (error : Thrown) : HttpRes :=
  let message := match error with
    | .errObj m => m
    | .nonErr => "Internal server error"
  ⟨500, .err message⟩

/-- Lowercase a string character by character
(`message.toLowerCase()`). -/
def lowerStr (s : String) : String := ⟨s.data.map Char.toLower⟩

/-- Whether `pat` occurs at the start of `l`. -/
def matchesAt (pat l : List Char) : Bool :=
  match pat, l with
  | [], _ => true
  | _ :: _, [] => false
  | a :: as, b :: bs => a == b && matchesAt as bs

/-- Whether `pat` occurs anywhere in `l` (`String.includes`). -/
def hasSubChars (pat : List Char) : List Char → Bool
  | [] => pat.isEmpty
  | c :: cs => matchesAt pat (c :: cs) || hasSubChars pat cs

/-- `s.includes(pat)` on strings. -/
def hasSub (s pat : String) : Bool := hasSubChars pat.data s.data

/-- The catch block shared verbatim by the three GET lookup routes
(`clientAdmRouter.get('/:id')`, `productAdmRouter.get('/:id/stock')`,
`storeCatalogRouter.get('/:id')`): 404 when the lowercased message
contains "not found", 500 otherwise. -/
def lookupCatch (error : Thrown) : HttpRes :=
  let message := match error with
    | .errObj m => m
    | .nonErr => "Internal server error"
  let status := if hasSub (lowerStr message) "not found" then 404 else 500
  ⟨status, .err message⟩

/-- One run of `paymentRouter.post('/')`: the `validateBody` middleware,
then the handler calling the payment facade, mapping `approved` to 200
and anything else to 422, with the catch turning a thrown `Error` into a
500.  The final `_, _` arm is unreachable after successful validation
(the normalized body always carries a string `orderId` and numeric
`amount`); it is given the catch's generic 500 for totality. -/
def postPayment (raw : Payload) (genId : String) (now : Nat)
    (store : List Transaction) : HttpRes × List Transaction × Bool :=
  match validateBodyRun processPaymentSchema raw with
  | .rejected res => (res, store, false)
  | .forwarded body =>
      match lookupKey body "orderId", lookupKey body "amount" with
      | some (.jstr oid), some (.jnum amt) =>
          let run := processPaymentUsecase oid amt genId now
          match run.result with
          | .ok r =>
              (⟨if r.status = .approved then 200 else 422, .payment r⟩,
               run.saves.foldl saveTransaction store, true)
          | .error e => (postPaymentsCatch (.errObj e), store, true)
      | _, _ => (postPaymentsCatch .nonErr, store, true)

/-- A payload of the shape the payment route receives, with a string
`orderId` and a positive numeric `amount`, validates successfully and is
forwarded unchanged. -/
lemma joiValidate_payment_ok (oid : String) (amt : Rat) (h : 0 < amt) :
    joiValidate processPaymentSchema
      [("orderId", .jstr oid), ("amount", .jnum amt)] =
      .ok [("orderId", .jstr oid), ("amount", .jnum amt)] := by
  simp [joiValidate, declaredErrors, declaredChecks, processPaymentSchema,
        lookupKey, checkField, coerceNumber, checkNumberRules, unknownErrors,
        isDeclared, normalizedBody, h, not_le.mpr h, jq]

/-- C1: for every payment request whose validated amount is positive, the
Transaction's `process` sets status `approved` iff amount ≥ 100 (boundary
included), and the POST /payments handler returns 200 with an `approved`
body exactly then, 422 with a `declined` body otherwise. -/
theorem payment_threshold_http (oid gid : String) (amt : Rat) (now : Nat)
    (store : List Transaction) (h : 0 < amt) :
    (100 ≤ amt →
      (postPayment [("orderId", .jstr oid), ("amount", .jnum amt)] gid now store).1 =
        ⟨200, .payment ⟨gid, oid, amt, .approved, now, now⟩⟩) ∧
    (amt < 100 →
      (postPayment [("orderId", .jstr oid), ("amount", .jnum amt)] gid now store).1 =
        ⟨422, .payment ⟨gid, oid, amt, .declined, now, now⟩⟩) := by
  have hv := joiValidate_payment_ok oid amt h
  have hne : ¬ amt ≤ 0 := not_le.mpr h
  constructor
  · intro h100
    simp [postPayment, validateBodyRun, hv, lookupKey, processPaymentUsecase,
          Transaction.create, Transaction.process, Transaction.approve,
          Transaction.decline, hne, h100]
  · intro h100
    have : ¬ 100 ≤ amt := not_le.mpr h100
    simp [postPayment, validateBodyRun, hv, lookupKey, processPaymentUsecase,
          Transaction.create, Transaction.process, Transaction.approve,
          Transaction.decline, hne, this]

/-- Witness for C1 at amounts 150 (approved, 200) and 50 (declined, 422). -/
theorem payment_threshold_http_witness :
    (postPayment [("orderId", .jstr "o1"), ("amount", .jnum 150)] "t1" 0 []).1 =
      ⟨200, .payment ⟨"t1", "o1", 150, .approved, 0, 0⟩⟩ ∧
    (postPayment [("orderId", .jstr "o2"), ("amount", .jnum 50)] "t2" 0 []).1 =
      ⟨422, .payment ⟨"t2", "o2", 50, .declined, 0, 0⟩⟩ :=
  ⟨(payment_threshold_http "o1" "t1" 150 0 [] (by norm_num)).1 (by norm_num),
   (payment_threshold_http "o2" "t2" 50 0 [] (by norm_num)).2 (by norm_num)⟩

/-- C2: constructing a Transaction with amount ≤ 0 fails with the domain
error "Amount must be greater than 0"; construction succeeds for every
positive amount; and a failed construction happens before any
persistence — the use case performs no save. -/
theorem transaction_amount_invariant :
    (∀ (idOpt : Option String) (genId orderId : String) (amt : Rat)
        (st : TStatus) (now : Nat), amt ≤ 0 →
        Transaction.create idOpt genId orderId amt st now =
          .error "Amount must be greater than 0") ∧
    (∀ (idOpt : Option String) (genId orderId : String) (amt : Rat)
        (st : TStatus) (now : Nat), 0 < amt →
        ∃ t, Transaction.create idOpt genId orderId amt st now = .ok t) ∧
    (∀ (orderId genId : String) (amt : Rat) (now : Nat), amt ≤ 0 →
        (processPaymentUsecase orderId amt genId now).saves = []) := by
  refine ⟨?_, ?_, ?_⟩
  · intro idOpt genId orderId amt st now hle
    simp [Transaction.create, hle]
  · intro idOpt genId orderId amt st now hpos
    exact ⟨⟨idOpt.getD genId, amt, orderId, st, now, now⟩,
           by simp [Transaction.create, not_le.mpr hpos]⟩
  · intro orderId genId amt now hle
    simp [processPaymentUsecase, Transaction.create, hle]

/-- Witness for C2 at amounts -10 and 0 (fail, no save) and 100.5 (ok). -/
theorem transaction_amount_invariant_witness :
    Transaction.create none "g" "o" (-10) .pending 0 =
      .error "Amount must be greater than 0" ∧
    Transaction.create none "g" "o" 0 .pending 0 =
      .error "Amount must be greater than 0" ∧
    (∃ t, Transaction.create none "g" "o" (mkRat 201 2) .pending 0 = .ok t) ∧
    (processPaymentUsecase "o" 0 "g" 0).saves = [] :=
  ⟨transaction_amount_invariant.1 none "g" "o" (-10) .pending 0 (by norm_num),
   transaction_amount_invariant.1 none "g" "o" 0 .pending 0 (by norm_num),
   transaction_amount_invariant.2.1 none "g" "o" (mkRat 201 2) .pending 0 (by norm_num),
   transaction_amount_invariant.2.2 "o" "g" 0 0 (by norm_num)⟩

/-- C5: the ProcessPayment use case constructs the transaction `pending`,
transitions it in memory, and persists exactly once, in the final
(never `pending`) state: its status trace is `pending` followed by the
final decision, and the single save carries that final status. -/
theorem process_payment_persists_once (oid gid : String) (amt : Rat)
    (now : Nat) (h : 0 < amt) :
    ∃ f, (f = TStatus.approved ∨ f = TStatus.declined) ∧ f ≠ .pending ∧
      (processPaymentUsecase oid amt gid now).statusTrace = [.pending, f] ∧
      (processPaymentUsecase oid amt gid now).saves.map Transaction.status = [f] := by
  have hne : ¬ amt ≤ 0 := not_le.mpr h
  by_cases h100 : 100 ≤ amt
  · refine ⟨.approved, .inl rfl, by simp, ?_, ?_⟩ <;>
      simp [processPaymentUsecase, Transaction.create, Transaction.process,
            Transaction.approve, hne, h100]
  · refine ⟨.declined, .inr rfl, by simp, ?_, ?_⟩ <;>
      simp [processPaymentUsecase, Transaction.create, Transaction.process,
            Transaction.decline, hne, h100]

/-- Witness for C5 at amounts 200 (approved path) and 75 (declined path). -/
theorem process_payment_persists_once_witness :
    (∃ f, (f = TStatus.approved ∨ f = TStatus.declined) ∧ f ≠ .pending ∧
      (processPaymentUsecase "o1" 200 "g1" 0).statusTrace = [.pending, f] ∧
      (processPaymentUsecase "o1" 200 "g1" 0).saves.map Transaction.status = [f]) ∧
    (∃ f, (f = TStatus.approved ∨ f = TStatus.declined) ∧ f ≠ .pending ∧
      (processPaymentUsecase "o2" 75 "g2" 0).statusTrace = [.pending, f] ∧
      (processPaymentUsecase "o2" 75 "g2" 0).saves.map Transaction.status = [f]) :=
  ⟨process_payment_persists_once "o1" "g1" 200 0 (by norm_num),
   process_payment_persists_once "o2" "g2" 75 0 (by norm_num)⟩

/-- A violation of any declared field of the schema appears among the
declared-field error messages. -/
lemma mem_declaredErrors {schema : Schema} {body : Payload} {n : String}
    {fs : FieldSchema} {m : String} (hmem : (n, fs) ∈ schema)
    (hchk : checkField n fs (lookupKey body n) = .error m) :
    m ∈ declaredErrors schema body := by
  unfold declaredErrors declaredChecks
  apply List.mem_filterMap.mpr
  refine ⟨(n, checkField n fs (lookupKey body n)), ?_, ?_⟩
  · exact List.mem_map.mpr ⟨(n, fs), hmem, rfl⟩
  · simp [hchk]

/-- When any violation exists, `joiValidate` returns the full error list. -/
lemma joiValidate_error_of_mem {schema : Schema} {body : Payload} {m : String}
    (h : m ∈ declaredErrors schema body ++ unknownErrors schema body) :
    joiValidate schema body =
      .error (declaredErrors schema body ++ unknownErrors schema body) := by
  have hne := List.ne_nil_of_mem h
  simp [joiValidate, List.isEmpty_iff, hne]

/-- C3: whenever schema validation fails, the validation stage terminates
the pipeline with a 400 response carrying the joined violation messages
and the downstream handler is never invoked — in particular the payment
route leaves the store untouched and never runs the use case; on success
the normalized payload is forwarded downstream. -/
theorem validation_rejects_before_usecase :
    (∀ (schema : Schema) (raw : Payload) (msgs : List String),
        joiValidate schema raw = .error msgs →
        validateBodyRun schema raw = .rejected ⟨400, .err (joinedError msgs)⟩) ∧
    (∀ (schema : Schema) (raw v : Payload),
        joiValidate schema raw = .ok v →
        validateBodyRun schema raw = .forwarded v) ∧
    (∀ (raw : Payload) (gid : String) (now : Nat) (store : List Transaction)
        (msgs : List String),
        joiValidate processPaymentSchema raw = .error msgs →
        postPayment raw gid now store =
          (⟨400, .err (joinedError msgs)⟩, store, false)) := by
  refine ⟨?_, ?_, ?_⟩
  · intro schema raw msgs h
    simp [validateBodyRun, h]
  · intro schema raw v h
    simp [validateBodyRun, h]
  · intro raw gid now store msgs h
    simp [postPayment, validateBodyRun, h]

/-- Witness for C3: a payload with a non-string `orderId` and missing
`amount` is rejected with 400, the store is unchanged and the use case
is not invoked. -/
theorem validation_rejects_before_usecase_witness :
    postPayment [("orderId", .jnum 5)] "g" 0 [] =
      (⟨400, .err (joinedError
        ["\"orderId\" must be a string", "\"amount\" is required"])⟩, [], false) :=
  validation_rejects_before_usecase.2.2 [("orderId", .jnum 5)] "g" 0 []
    ["\"orderId\" must be a string", "\"amount\" is required"] (by decide)

/-- C4: violations are collected in a single pass with no short-circuit:
a payload failing on two declared fields yields a 400 rejection whose
error list reports both fields' messages. -/
theorem validation_collects_all_violations (schema : Schema) (body : Payload)
    (n1 n2 m1 m2 : String) (fs1 fs2 : FieldSchema)
    (h1 : (n1, fs1) ∈ schema)
    (h2 : checkField n1 fs1 (lookupKey body n1) = .error m1)
    (h3 : (n2, fs2) ∈ schema)
    (h4 : checkField n2 fs2 (lookupKey body n2) = .error m2) :
    ∃ es, joiValidate schema body = .error es ∧ m1 ∈ es ∧ m2 ∈ es ∧
      validateBodyRun schema body = .rejected ⟨400, .err (joinedError es)⟩ := by
  have hm1 := List.mem_append_left (unknownErrors schema body)
    (mem_declaredErrors h1 h2)
  have hm2 := List.mem_append_left (unknownErrors schema body)
    (mem_declaredErrors h3 h4)
  refine ⟨_, joiValidate_error_of_mem hm1, hm1, hm2, ?_⟩
  simp [validateBodyRun, joiValidate_error_of_mem hm1]

/-- Witness for C4: the empty payload fails on both `orderId` and
`amount`, and both "is required" messages are reported together. -/
theorem validation_collects_all_violations_witness :
    ∃ es, joiValidate processPaymentSchema [] = .error es ∧
      "\"orderId\" is required" ∈ es ∧ "\"amount\" is required" ∈ es ∧
      validateBodyRun processPaymentSchema [] =
        .rejected ⟨400, .err (joinedError es)⟩ :=
  validation_collects_all_violations processPaymentSchema []
    "orderId" "amount" "\"orderId\" is required" "\"amount\" is required"
    ⟨.jstring, true⟩ ⟨.jnumber true false none, true⟩
    (by decide) (by decide) (by decide) (by decide)

/-- C9 counterexample: a payload valid on both declared fields but
carrying the unknown field `extra` is NOT accepted with the unknown field
stripped — validation fails and the route answers 400 with an
"is not allowed" violation, so the claim as stated is false. -/
theorem unknown_field_not_stripped_cex :
    joiValidate processPaymentSchema
      [("orderId", .jstr "o1"), ("amount", .jnum 150), ("extra", .jbool true)] =
      .error ["\"extra\" is not allowed"] ∧
    (postPayment [("orderId", .jstr "o1"), ("amount", .jnum 150),
        ("extra", .jbool true)] "g" 0 []).1.status = 400 := by
  exact ⟨by decide, by decide⟩

/-- C9 as amended: a payload carrying a field not declared in the schema
is rejected — validation fails with 400, reporting an
"is not allowed" violation for the unknown field, and nothing is
forwarded downstream (Joi's default `allowUnknown: false`; the
middleware passes no `stripUnknown` option). -/
theorem unknown_field_rejected (schema : Schema) (body : Payload)
    (k : String) (v : JValue) (hmem : (k, v) ∈ body)
    (hundecl : isDeclared schema k = false) :
    ∃ es, joiValidate schema body = .error es ∧
      (jq k ++ " is not allowed") ∈ es ∧
      validateBodyRun schema body = .rejected ⟨400, .err (joinedError es)⟩ := by
  have hmemU : (jq k ++ " is not allowed") ∈ unknownErrors schema body := by
    unfold unknownErrors
    apply List.mem_map.mpr
    exact ⟨(k, v), List.mem_filter.mpr ⟨hmem, by simp [hundecl]⟩, rfl⟩
  have h' := List.mem_append_right (declaredErrors schema body) hmemU
  exact ⟨_, joiValidate_error_of_mem h', h',
         by simp [validateBodyRun, joiValidate_error_of_mem h']⟩

/-- Witness for the amended C9 at the concrete unknown field `extra`. -/
theorem unknown_field_rejected_witness :
    ∃ es, joiValidate processPaymentSchema
        [("orderId", .jstr "o1"), ("amount", .jnum 150), ("extra", .jbool true)] =
        .error es ∧
      (jq "extra" ++ " is not allowed") ∈ es ∧
      validateBodyRun processPaymentSchema
        [("orderId", .jstr "o1"), ("amount", .jnum 150), ("extra", .jbool true)] =
        .rejected ⟨400, .err (joinedError es)⟩ :=
  unknown_field_rejected processPaymentSchema
    [("orderId", .jstr "o1"), ("amount", .jnum 150), ("extra", .jbool true)]
    "extra" (.jbool true) (by decide) (by decide)

/-- A stored client row (`ClientModel`): identifier, name, email, address,
timestamps. -/
structure Client where
  id : String
  name : String
  email : String
  address : String
  createdAt : Nat
  updatedAt : Nat
deriving DecidableEq, Repr

/-- A stored product row: the single underlying products table carries
both the administration fields (`purchasePrice`, `stock`) and the catalog
field (`salesPrice`) (spec §6). -/
structure ProductRow where
  id : String
  name : String
  description : String
  purchasePrice : Rat
  salesPrice : Rat
  stock : Int
deriving DecidableEq, Repr

/-- Modelled from the spec: `FindClientUseCase` is not under `src/` (only
the route and its tests are).  Look up by identifier; if absent, fail
with the "not found" error whose message is "Client not found" (README
§API, route tests). -/
def findClientUsecase (store : List Client) (id : String) :
    Except String Client :=
  match store.find? (fun c => c.id == id) with
  | some c => .ok c
  | none => .error "Client not found"

/-- Modelled from the spec: `CheckStockUseCase` is not under `src/`.
Look up by identifier; if absent, fail "Product not found"; otherwise
return the `\x7b productId, stock \x7d` projection (spec §4.3, README). -/
def checkStockUsecase (rows : List ProductRow) (id : String) :
    Except String Payload :=
  match rows.find? (fun p => p.id == id) with
  | some p => .ok [("productId", .jstr p.id), ("stock", .jnum (p.stock : Rat))]
  | none => .error "Product not found"

/-- The catalog projection of one product row, as built by
`FindAllProductsUsecase.execute` in
`src/modules/store-catalog/usecase/find-all-products/find-all-products.usecase.ts`:
`\x7b id, name, description, salesPrice \x7d`. -/
def catalogItem (p : ProductRow) : Payload :=
  [("id", .jstr p.id), ("name", .jstr p.name),
   ("description", .jstr p.description), ("salesPrice", .jnum p.salesPrice)]

/-- `FindAllProductsUsecase.execute`: map every stored product to its
catalog projection. -/
def findAllProductsExecute (rows : List ProductRow) : List Payload :=
  rows.map catalogItem

/-- Modelled from the spec: `FindProductUseCase` (catalog by id) is not
under `src/`.  Look up by identifier; if absent, fail "Product not
found"; otherwise return the catalog projection (README, route tests). -/
def findCatalogProductUsecase (rows : List ProductRow) (id : String) :
    Except String Payload :=
  match rows.find? (fun p => p.id == id) with
  | some p => .ok (catalogItem p)
  | none => .error "Product not found"

/-- `clientAdmRouter.get('/:id')` of
`src/modules/client-adm/routes/client-adm.routes.ts`: 200 with the
client, else the lookup catch (404 on "not found" messages, 500
otherwise). -/
def getClientById (store : List Client) (id : String) : HttpRes :=
  match findClientUsecase store id with
  | .ok c => ⟨200, .kvs [("id", .jstr c.id), ("name", .jstr c.name),
      ("email", .jstr c.email), ("address", .jstr c.address),
      ("createdAt", .jnum (c.createdAt : Rat)),
      ("updatedAt", .jnum (c.updatedAt : Rat))]⟩
  | .error m => lookupCatch (.errObj m)

/-- `productAdmRouter.get('/:id/stock')` of
`src/modules/product-adm/routes/product-adm.routes.ts`. -/
def getProductStock (rows : List ProductRow) (id : String) : HttpRes :=
  match checkStockUsecase rows id with
  | .ok body => ⟨200, .kvs body⟩
  | .error m => lookupCatch (.errObj m)

/-- `storeCatalogRouter.get('/:id')` of
`src/modules/store-catalog/routes/store-catalog.routes.ts`. -/
def getCatalogProduct (rows : List ProductRow) (id : String) : HttpRes :=
  match findCatalogProductUsecase rows id with
  | .ok body => ⟨200, .kvs body⟩
  | .error m => lookupCatch (.errObj m)

/-- `storeCatalogRouter.get('/')`: 200 with all catalog projections. -/
def getCatalogList (rows : List ProductRow) : HttpRes :=
  ⟨200, .items (findAllProductsExecute rows)⟩


/-- C6: a GET lookup handler answers 404 exactly when the thrown error's
lowercased message contains "not found" (500 otherwise), and a lookup for
an identifier never created answers 404 with a message containing
"not found" — for client-by-id, product stock, and catalog product. -/
theorem lookup_not_found_mapping :
    (∀ m : String,
      ((lookupCatch (.errObj m)).status = 404 ↔
        hasSub (lowerStr m) "not found" = true) ∧
      ((lookupCatch (.errObj m)).status = 500 ↔
        hasSub (lowerStr m) "not found" = false)) ∧
    (∀ (store : List Client) (id : String),
      store.all (fun c => c.id != id) = true →
      getClientById store id = ⟨404, .err "Client not found"⟩) ∧
    (∀ (rows : List ProductRow) (id : String),
      rows.all (fun p => p.id != id) = true →
      getProductStock rows id = ⟨404, .err "Product not found"⟩) ∧
    (∀ (rows : List ProductRow) (id : String),
      rows.all (fun p => p.id != id) = true →
      getCatalogProduct rows id = ⟨404, .err "Product not found"⟩) := by
  have hclient : lookupCatch (.errObj "Client not found") =
      ⟨404, .err "Client not found"⟩ := by decide
  have hproduct : lookupCatch (.errObj "Product not found") =
      ⟨404, .err "Product not found"⟩ := by decide
  refine ⟨?_, ?_, ?_, ?_⟩
  · intro m
    cases hs : hasSub (lowerStr m) "not found" <;> simp [lookupCatch, hs]
  · intro store id hall
    have hfind : store.find? (fun c => c.id == id) = none := by
      apply List.find?_eq_none.mpr
      intro c hc
      simpa using List.all_eq_true.mp hall c hc
    simp [getClientById, findClientUsecase, hfind, hclient]
  · intro rows id hall
    have hfind : rows.find? (fun p => p.id == id) = none := by
      apply List.find?_eq_none.mpr
      intro p hp
      simpa using List.all_eq_true.mp hall p hp
    simp [getProductStock, checkStockUsecase, hfind, hproduct]
  · intro rows id hall
    have hfind : rows.find? (fun p => p.id == id) = none := by
      apply List.find?_eq_none.mpr
      intro p hp
      simpa using List.all_eq_true.mp hall p hp
    simp [getCatalogProduct, findCatalogProductUsecase, hfind, hproduct]

/-- Witness for C6: lookups against stores that never saw the identifier
return 404 with a "not found" message. -/
theorem lookup_not_found_mapping_witness :
    getClientById [] "missing-id" = ⟨404, .err "Client not found"⟩ ∧
    getProductStock [] "missing-id" = ⟨404, .err "Product not found"⟩ ∧
    getCatalogProduct [⟨"cat-prod-001", "Gaming Chair", "Ergonomic", 1, 2, 3⟩]
      "missing-id" = ⟨404, .err "Product not found"⟩ :=
  ⟨lookup_not_found_mapping.2.1 [] "missing-id" (by decide),
   lookup_not_found_mapping.2.2.1 [] "missing-id" (by decide),
   lookup_not_found_mapping.2.2.2
     [⟨"cat-prod-001", "Gaming Chair", "Ergonomic", 1, 2, 3⟩] "missing-id"
     (by decide)⟩

/-- C7: every catch block answers 500 (GETs: whenever it answers 500)
with the thrown `Error`'s own message in the body's `error` field, and
with the fixed generic "Internal server error" only when the thrown
value is not a recognized `Error`. -/
theorem unhandled_error_message_mapping :
    (∀ m : String,
      postClientsCatch (.errObj m) = ⟨500, .err m⟩ ∧
      postProductsCatch (.errObj m) = ⟨500, .err m⟩ ∧
      postPaymentsCatch (.errObj m) = ⟨500, .err m⟩ ∧
      (lookupCatch (.errObj m)).body = .err m) ∧
    (postClientsCatch .nonErr = ⟨500, .err "Internal server error"⟩ ∧
     postProductsCatch .nonErr = ⟨500, .err "Internal server error"⟩ ∧
     postPaymentsCatch .nonErr = ⟨500, .err "Internal server error"⟩ ∧
     lookupCatch .nonErr = ⟨500, .err "Internal server error"⟩) :=
  ⟨fun _ => ⟨rfl, rfl, rfl, rfl⟩, rfl, rfl, rfl, by decide⟩

/-- C10: the "not found" → 404 convention applies only to GET lookups:
the POST catch blocks (add client, add product, process payment) always
answer 500, even for an `Error` whose message contains "not found" —
where the GET catch would answer 404. -/
theorem post_failures_never_404 (t : Thrown) (m : String)
    (h : hasSub (lowerStr m) "not found" = true) :
    (postClientsCatch t).status = 500 ∧
    (postProductsCatch t).status = 500 ∧
    (postPaymentsCatch t).status = 500 ∧
    (postClientsCatch (.errObj m)).status = 500 ∧
    (postProductsCatch (.errObj m)).status = 500 ∧
    (postPaymentsCatch (.errObj m)).status = 500 ∧
    (lookupCatch (.errObj m)).status = 404 := by
  refine ⟨rfl, rfl, rfl, rfl, rfl, rfl, ?_⟩
  simp [lookupCatch, h]

/-- Witness for C10 at the message "Client not found". -/
theorem post_failures_never_404_witness :
    (postClientsCatch .nonErr).status = 500 ∧
    (postProductsCatch .nonErr).status = 500 ∧
    (postPaymentsCatch .nonErr).status = 500 ∧
    (postClientsCatch (.errObj "Client not found")).status = 500 ∧
    (postProductsCatch (.errObj "Client not found")).status = 500 ∧
    (postPaymentsCatch (.errObj "Client not found")).status = 500 ∧
    (lookupCatch (.errObj "Client not found")).status = 404 :=
  post_failures_never_404 .nonErr "Client not found" (by decide)

/-- C8: the catalog projections (list and by-id) expose exactly
`id, name, description, salesPrice` and never `purchasePrice`; the
stock-check response exposes exactly `productId, stock` and never
`salesPrice`. -/
theorem projection_field_sets :
    (∀ p : ProductRow,
      (catalogItem p).map Prod.fst = ["id", "name", "description", "salesPrice"] ∧
      ((catalogItem p).all (fun f => f.fst != "purchasePrice")) = true) ∧
    (∀ rows : List ProductRow,
      ((findAllProductsExecute rows).all
        (fun item => item.map Prod.fst ==
          ["id", "name", "description", "salesPrice"])) = true) ∧
    (∀ (rows : List ProductRow) (id : String) (body : Payload),
      findCatalogProductUsecase rows id = .ok body →
      body.map Prod.fst = ["id", "name", "description", "salesPrice"] ∧
      (body.all (fun f => f.fst != "purchasePrice")) = true) ∧
    (∀ (rows : List ProductRow) (id : String) (body : Payload),
      checkStockUsecase rows id = .ok body →
      body.map Prod.fst = ["productId", "stock"] ∧
      (body.all (fun f => f.fst != "salesPrice")) = true) := by
  refine ⟨fun p => ⟨rfl, rfl⟩, ?_, ?_, ?_⟩
  · intro rows
    apply List.all_eq_true.mpr
    intro item hitem
    rcases List.mem_map.mp hitem with ⟨p, _, rfl⟩
    rfl
  · intro rows id body h
    cases hf : rows.find? (fun p => p.id == id) <;>
      simp [findCatalogProductUsecase, hf] at h
    rw [← h]
    exact ⟨rfl, rfl⟩
  · intro rows id body h
    cases hf : rows.find? (fun p => p.id == id) <;>
      simp [checkStockUsecase, hf] at h
    rw [← h]
    exact ⟨rfl, rfl⟩

/-- Witness for C8 at a concrete one-product store. -/
theorem projection_field_sets_witness :
    (catalogItem ⟨"p1", "Chair", "Desc", 10, 20, 5⟩).map Prod.fst =
      ["id", "name", "description", "salesPrice"] ∧
    ((findAllProductsExecute [⟨"p1", "Chair", "Desc", 10, 20, 5⟩]).all
      (fun item => item.map Prod.fst ==
        ["id", "name", "description", "salesPrice"])) = true ∧
    ([("productId", JValue.jstr "p1"), ("stock", JValue.jnum 5)].map Prod.fst =
      ["productId", "stock"] ∧
     (([("productId", JValue.jstr "p1"), ("stock", JValue.jnum 5)] : Payload).all
        (fun f => f.fst != "salesPrice")) = true) :=
  ⟨(projection_field_sets.1 ⟨"p1", "Chair", "Desc", 10, 20, 5⟩).1,
   projection_field_sets.2.1 [⟨"p1", "Chair", "Desc", 10, 20, 5⟩],
   projection_field_sets.2.2.2 [⟨"p1", "Chair", "Desc", 10, 20, 5⟩] "p1"
     [("productId", JValue.jstr "p1"), ("stock", JValue.jnum 5)] (by decide)⟩
